import Mathlib

/-!
Verification development for the watermark-styling engine of the Tiktok repository
(`src/styles/neon.js`, `src/styles/holo.js`, `src/styles/vintage.js`,
`src/styles/filmvint.js`, `src/unnamed/part_000`).

The JavaScript style classes build ffmpeg filter pipelines: ordered lists of
`drawtext` (and box/tone) operations whose parameters are interpolated into a
textual filter graph.  The shallow embedding below models:

  * style records and the object-spread merge `\x7b...defaults, ...custom\x7d`
    as association lists with first-match-wins lookup (keys of the later spread
    are placed in front, which reproduces JavaScript key-lookup semantics);
  * the coordinate mini-language produced by `_calculatePosition` (numeric
    offsets and the symbolic strings `w-tw-OFF`, `h-th-OFF`, `(w-tw)/2`,
    `(h-th)/2`) as an inductive `Coord`;
  * each emitted `drawtext=...` template as a `DrawText` structure whose fields
    are the interpolated parameters, with time-varying `@alpha` expressions
    kept symbolic in `AlphaExpr`;
  * JavaScript numbers as exact rationals (ℚ); the single place where a number
    can become `NaN` (the `parseInt` in vintage's emboss layer) is modelled by
    `Option ℚ`, with `none` standing for `NaN`.
-/

/-- A JavaScript value as it occurs in the style-override records of this
repository: strings, numbers (modelled as exact rationals), booleans, null. -/
inductive JsValue where
  | str (s : String)
  | num (q : ℚ)
  | bool (b : Bool)
  | null
  deriving DecidableEq, Repr

/-- A JavaScript object used as a style record: an association list searched
front to back, so an entry placed earlier shadows a later one with the same
key. -/
abbrev JsRecord := List (String × JsValue)

/-- Object-spread merge `\x7b...defaults, ...overrides\x7d` as performed by every
`applyToVideo`/`applyToImage` in the repository (e.g. `src/styles/neon.js`
line 32, `src/unnamed/part_000` line 34).  Keys of `overrides` win, so they are
placed in front of the defaults in the first-match-wins association list. -/
def spreadMerge (defaults overrides : JsRecord) : JsRecord :=
  overrides ++ defaults

/-- A coordinate value as produced by the `_calculatePosition` tables: either a
plain JavaScript number (a pixel offset) or one of the four symbolic ffmpeg
strings appearing in the source. -/
inductive Coord where
  /-- a numeric pixel coordinate (`offsetX` / `offsetY`) -/
  | ofNum (n : ℚ)
  /-- the string `w-tw-OFF` (frame width minus text width minus offset) -/
  | wTwSub (off : ℚ)
  /-- the string `h-th-OFF` (frame height minus text height minus offset) -/
  | hThSub (off : ℚ)
  /-- the string `(w-tw)/2` (horizontally centred) -/
  | centerW
  /-- the string `(h-th)/2` (vertically centred) -/
  | centerH
  deriving DecidableEq, Repr

/-- A resolved position: the pair of coordinate values returned by
`_calculatePosition`. -/
structure Pos where
  x : Coord
  y : Coord
  deriving DecidableEq, Repr

/-- The position table shared verbatim by all five `_calculatePosition`
implementations in the repository (`neon.js` lines 141-149, `holo.js` lines
189-197, `vintage.js` lines 204-212, `filmvint.js` lines 198-206,
`src/unnamed/part_000` lines 146-154). -/
def positionsTable (offsetX offsetY : ℚ) : List (String × Pos) :=
  [ ("top-left", ⟨.ofNum offsetX, .ofNum offsetY⟩)
  , ("top-right", ⟨.wTwSub offsetX, .ofNum offsetY⟩)
  , ("bottom-left", ⟨.ofNum offsetX, .hThSub offsetY⟩)
  , ("bottom-right", ⟨.wTwSub offsetX, .hThSub offsetY⟩)
  , ("center", ⟨.centerW, .centerH⟩)
  , ("top-center", ⟨.centerW, .ofNum offsetY⟩)
  , ("bottom-center", ⟨.centerW, .hThSub offsetY⟩) ]

/-- The shared body of `_calculatePosition`: look the anchor up in the table
and fall back to the family's hard-coded default anchor
(`positions[position] || positions[default]`).  Each family instantiates
`dflt` with its own literal: neon `top-right`, holo `center`, vintage and
filmvint `bottom-center`, the plain watermark styler `bottom-right`.  If even
the default were absent (never the case for the five families) the JavaScript
would crash; the embedding totalises that dead branch with `⟨.ofNum 0, .ofNum 0⟩`. -/
def calculatePositionWithDefault (dflt position : String) (offsetX offsetY : ℚ) : Pos :=
  match (positionsTable offsetX offsetY).lookup position with
  | some p => p
  | none => ((positionsTable offsetX offsetY).lookup dflt).getD ⟨.ofNum 0, .ofNum 0⟩

/-- `NeonWatermarkStyler._calculatePosition` (`src/styles/neon.js` lines 140-151). -/
def neonCalculatePosition (position : String) (offsetX offsetY : ℚ) : Pos :=
  calculatePositionWithDefault "top-right" position offsetX offsetY

/-- `HolographicWatermarkStyler._calculatePosition` (`src/styles/holo.js` lines 188-199). -/
def holoCalculatePosition (position : String) (offsetX offsetY : ℚ) : Pos :=
  calculatePositionWithDefault "center" position offsetX offsetY

/-- `VintageWatermarkStyler._calculatePosition` (`src/styles/vintage.js` lines 203-214). -/
def vintageCalculatePosition (position : String) (offsetX offsetY : ℚ) : Pos :=
  calculatePositionWithDefault "bottom-center" position offsetX offsetY

/-- `WatermarkStyler._calculatePosition` (`src/unnamed/part_000` lines 145-157). -/
def watermarkCalculatePosition (position : String) (offsetX offsetY : ℚ) : Pos :=
  calculatePositionWithDefault "bottom-right" position offsetX offsetY

/-- The seven documented anchor names (spec section 3, Anchor). -/
def anchorNames : List String :=
  ["top-left", "top-right", "bottom-left", "bottom-right",
   "center", "top-center", "bottom-center"]

/-- Modelled from the spec wording of section 4.2 for the refinement claim C3:
the documented symbolic formula for each of the seven named anchors
(top-left ↦ (offsetX, offsetY); bottom-right ↦ (frameWidth − textWidth −
offsetX, frameHeight − textHeight − offsetY); center ↦ ((frameWidth −
textWidth)/2, (frameHeight − textHeight)/2); the remaining anchors combine
those coordinate forms).  Returns `none` for an unrecognized anchor. -/
def resolvePositionSpec (anchor : String) (offsetX offsetY : ℚ) : Option Pos :=
  if anchor = "top-left" then some ⟨.ofNum offsetX, .ofNum offsetY⟩
  else if anchor = "top-right" then some ⟨.wTwSub offsetX, .ofNum offsetY⟩
  else if anchor = "bottom-left" then some ⟨.ofNum offsetX, .hThSub offsetY⟩
  else if anchor = "bottom-right" then some ⟨.wTwSub offsetX, .hThSub offsetY⟩
  else if anchor = "center" then some ⟨.centerW, .centerH⟩
  else if anchor = "top-center" then some ⟨.centerW, .ofNum offsetY⟩
  else if anchor = "bottom-center" then some ⟨.centerW, .hThSub offsetY⟩
  else none

/-- A coordinate parameter as interpolated into a `drawtext`/`drawbox`
template.  The symbolic cases mirror the exact string shapes built in the
source (`POS+D`, `POS-D`, jitter expressions, `tw+D`, `th+D`); `jsNum` is a
plain JavaScript number computed before interpolation, with `none` encoding
`NaN`. -/
inductive CoordE where
  /-- the position coordinate interpolated as-is -/
  | base (c : Coord)
  /-- the string `POS+D` (string-level shift used by rainbow/prism/static emboss) -/
  | shift (c : Coord) (d : ℚ)
  /-- the string `POS-D` (chromatic-aberration left shift, drawbox origin) -/
  | shiftNeg (c : Coord) (d : ℚ)
  /-- the string `POS+AMP*sin(t*FREQ)` (holo glitch x displacement) -/
  | jitterSin (c : Coord) (amp freq : ℚ)
  /-- the string `POS+AMP*cos(t*FREQ)` (holo glitch y displacement) -/
  | jitterCos (c : Coord) (amp freq : ℚ)
  /-- the string `tw+D` (ornate border box width) -/
  | twAdd (d : ℚ)
  /-- the string `th+D` (ornate border box height) -/
  | thAdd (d : ℚ)
  /-- a plain JavaScript number interpolated into the template; `none` is `NaN` -/
  | jsNum (v : Option ℚ)
  deriving DecidableEq, Repr

/-- The `@...` opacity expression attached to a `fontcolor`.  Constructors
mirror the exact expression shapes interpolated by the source; the time
variable `t` stays symbolic. -/
inductive AlphaExpr where
  /-- a constant opacity `@Q` -/
  | const (q : ℚ)
  /-- neon blink: `if(mod(floor(t*SPEED),2),HI,LO)` (`neon.js` line 113) -/
  | blink (speed hi lo : ℚ)
  /-- scaled rectified sine: `SCALE*abs(sin(t*SPEED+PHASE))` (holo rainbow,
  interference and prism layers) -/
  | absSin (scale speed phase : ℚ)
  /-- multiplicative gate: `BASE*if(mod(floor(t*SPEED),M),1,DIM)` (holo glitch
  and flicker layers) -/
  | mulGate (base speed m dim : ℚ)
  /-- pulse: `BASE*(C1+C2*sin(t*SPEED))` (`applyPulsingNeon` expressions) -/
  | pulse (base c1 c2 speed : ℚ)
  /-- clamped reveal: `min(t*RATE,TARGET)` (`createLogoReveal` fade-in) -/
  | minReveal (rate target : ℚ)
  deriving DecidableEq, Repr

/-- Border (outline) parameters of a `drawtext` operation: `borderw=W` and
`bordercolor=COLOR` with an optional `@ALPHA` suffix on the colour. -/
structure BorderSpec where
  w : ℚ
  color : String
  colorAlpha : Option ℚ
  deriving DecidableEq, Repr

/-- One `drawtext=...` operation with the parameters the source interpolates
into the template: text, font size, colour, `@` opacity expression, x/y
coordinates, font, and optional border. -/
structure DrawText where
  text : String
  fontsize : ℚ
  fontcolor : String
  alpha : AlphaExpr
  x : CoordE
  y : CoordE
  font : String
  border : Option BorderSpec := none
  deriving DecidableEq, Repr

/-- The neon style configuration: the fields of
`NeonWatermarkStyler.defaultStyle` (`src/styles/neon.js` lines 7-25). -/
structure NeonStyle where
  text : String
  font : String
  fontSize : ℚ
  primaryColor : String
  secondaryColor : String
  glowColor : String
  opacity : ℚ
  rotation : ℚ
  position : String
  offsetX : ℚ
  offsetY : ℚ
  glowIntensity : ℚ
  enableDoubleStroke : Bool
  strokeWidth : ℚ
  animationSpeed : ℚ
  blinkEffect : Bool
  scanlineEffect : Bool
  deriving DecidableEq, Repr

/-- `NeonWatermarkStyler.defaultStyle` (`src/styles/neon.js` lines 7-25). -/
def neonDefaultStyle : NeonStyle :=
  { text := "NEON"
  , font := "Arial Bold"
  , fontSize := 52
  , primaryColor := "#00ffff"
  , secondaryColor := "#ff00ff"
  , glowColor := "#00ffff"
  , opacity := 0.85
  , rotation := 0
  , position := "top-right"
  , offsetX := 40
  , offsetY := 40
  , glowIntensity := 8
  , enableDoubleStroke := true
  , strokeWidth := 3
  , animationSpeed := 0.5
  , blinkEffect := false
  , scanlineEffect := true }

/-- The main crisp text layer pushed last by `_buildNeonFilter`
(`src/styles/neon.js` lines 105-109): primary colour at the configured
opacity, with a double-stroke border when `enableDoubleStroke` is set. -/
def neonMainLayer (style : NeonStyle) (position : Pos) : DrawText :=
  if style.enableDoubleStroke then
    { text := style.text, fontsize := style.fontSize, fontcolor := style.primaryColor
    , alpha := .const style.opacity, x := .base position.x, y := .base position.y
    , font := style.font
    , border := some ⟨style.strokeWidth, style.secondaryColor, none⟩ }
  else
    { text := style.text, fontsize := style.fontSize, fontcolor := style.primaryColor
    , alpha := .const style.opacity, x := .base position.x, y := .base position.y
    , font := style.font }

/-- `NeonWatermarkStyler._buildNeonFilter` (`src/styles/neon.js` lines
89-118): three glow layers of growing opacity and shrinking extra size, then
the main layer; when `blinkEffect` is set the blink modulation replaces the
`@opacity` of the last (main) layer in place. -/
def buildNeonFilter (style : NeonStyle) : List DrawText :=
  let position := neonCalculatePosition style.position style.offsetX style.offsetY
  let layers : List DrawText :=
    [ { text := style.text, fontsize := style.fontSize + style.glowIntensity * 2
      , fontcolor := style.glowColor, alpha := .const 0.2
      , x := .base position.x, y := .base position.y, font := style.font }
    , { text := style.text, fontsize := style.fontSize + style.glowIntensity
      , fontcolor := style.glowColor, alpha := .const 0.4
      , x := .base position.x, y := .base position.y, font := style.font }
    , { text := style.text, fontsize := style.fontSize + 2
      , fontcolor := style.glowColor, alpha := .const 0.6
      , x := .base position.x, y := .base position.y, font := style.font } ]
    ++ [neonMainLayer style position]
  if style.blinkEffect then
    layers.dropLast ++
      [ { neonMainLayer style position with
            alpha := .blink (style.animationSpeed * 2) style.opacity (style.opacity * 0.3) } ]
  else
    layers

/-- The holographic style configuration: the fields of
`HolographicWatermarkStyler.defaultStyle` (`src/styles/holo.js` lines 7-30). -/
structure HoloStyle where
  text : String
  font : String
  fontSize : ℚ
  primaryColor : String
  secondaryColor : String
  tertiaryColor : String
  accentColor : String
  opacity : ℚ
  rotation : ℚ
  position : String
  offsetX : ℚ
  offsetY : ℚ
  scanlineSpeed : ℚ
  glitchIntensity : ℚ
  chromaticAberration : ℚ
  enableScanlines : Bool
  enableGlitch : Bool
  enableRainbow : Bool
  enableFlicker : Bool
  hologramDepth : ℚ
  interferencePattern : Bool
  prismEffect : Bool
  deriving DecidableEq, Repr

/-- `HolographicWatermarkStyler.defaultStyle` (`src/styles/holo.js` lines 7-30). -/
def holoDefaultStyle : HoloStyle :=
  { text := "HOLOGRAM"
  , font := "Arial Bold"
  , fontSize := 50
  , primaryColor := "#00ffff"
  , secondaryColor := "#ff00ff"
  , tertiaryColor := "#ffff00"
  , accentColor := "#00ff00"
  , opacity := 0.8
  , rotation := 0
  , position := "center"
  , offsetX := 0
  , offsetY := 0
  , scanlineSpeed := 2.0
  , glitchIntensity := 0.3
  , chromaticAberration := 3
  , enableScanlines := true
  , enableGlitch := true
  , enableRainbow := true
  , enableFlicker := false
  , hologramDepth := 5
  , interferencePattern := true
  , prismEffect := true }

/-- The seven rainbow colours hard-coded in `_buildHolographicFilter`
(`src/styles/holo.js` line 100). -/
def rainbowColors : List String :=
  ["#ff0000", "#ff7f00", "#ffff00", "#00ff00", "#0000ff", "#4b0082", "#9400d3"]

/-- `HolographicWatermarkStyler._buildHolographicFilter` (`src/styles/holo.js`
lines 94-147).  Every block is guarded by its effect flag: rainbow layers,
chromatic-aberration triad, interference layer, glitch layer, prism layers
(the code's own comment calls these the main holographic text), flicker
layer.  No layer is emitted unconditionally. -/
def buildHolographicFilter (style : HoloStyle) : List DrawText :=
  let position := holoCalculatePosition style.position style.offsetX style.offsetY
  (if style.enableRainbow then
    rainbowColors.mapIdx fun index color =>
      { text := style.text, fontsize := style.fontSize, fontcolor := color
      , alpha := .absSin (style.opacity * 0.6) style.scanlineSpeed ((index : ℚ) * 0.5)
      , x := .shift position.x (index : ℚ), y := .shift position.y (index : ℚ)
      , font := style.font }
   else []) ++
  (if 0 < style.chromaticAberration then
    [ { text := style.text, fontsize := style.fontSize, fontcolor := "#ff0000"
      , alpha := .const (style.opacity * 0.7)
      , x := .shiftNeg position.x style.chromaticAberration, y := .base position.y
      , font := style.font }
    , { text := style.text, fontsize := style.fontSize, fontcolor := "#00ff00"
      , alpha := .const (style.opacity * 0.7)
      , x := .base position.x, y := .base position.y, font := style.font }
    , { text := style.text, fontsize := style.fontSize, fontcolor := "#0000ff"
      , alpha := .const (style.opacity * 0.7)
      , x := .shift position.x style.chromaticAberration, y := .base position.y
      , font := style.font } ]
   else []) ++
  (if style.interferencePattern then
    [ { text := style.text, fontsize := style.fontSize + 2, fontcolor := style.primaryColor
      , alpha := .absSin (style.opacity * 0.4) (style.scanlineSpeed * 3) 0
      , x := .base position.x, y := .base position.y, font := style.font } ]
   else []) ++
  (if style.enableGlitch then
    [ { text := style.text, fontsize := style.fontSize, fontcolor := style.secondaryColor
      , alpha := .mulGate style.opacity (style.scanlineSpeed * 4) 8 0.3
      , x := .jitterSin position.x (style.glitchIntensity * 10) (style.scanlineSpeed * 5)
      , y := .jitterCos position.y (style.glitchIntensity * 5) (style.scanlineSpeed * 7)
      , font := style.font } ]
   else []) ++
  (if style.prismEffect then
    [style.primaryColor, style.secondaryColor, style.tertiaryColor, style.accentColor].mapIdx
      fun index color =>
        { text := style.text, fontsize := style.fontSize, fontcolor := color
        , alpha := .absSin (style.opacity * 0.8) style.scanlineSpeed (index : ℚ)
        , x := .shift position.x ((index : ℚ) * 2), y := .shift position.y ((index : ℚ) * 2)
        , font := style.font }
   else []) ++
  (if style.enableFlicker then
    [ { text := style.text, fontsize := style.fontSize, fontcolor := style.primaryColor
      , alpha := .mulGate style.opacity (style.scanlineSpeed * 8) 3 0.1
      , x := .base position.x, y := .base position.y, font := style.font } ]
   else [])

/-- The holographic configuration with every optional effect disabled: all
boolean effect flags false and chromatic aberration zero.  Used to probe the
compositor's behaviour when no effect is enabled. -/
def holoAllOff : HoloStyle :=
  { holoDefaultStyle with
      enableRainbow := false
    , chromaticAberration := 0
    , interferencePattern := false
    , enableGlitch := false
    , prismEffect := false
    , enableFlicker := false
    , enableScanlines := false }

/-- The vintage style configuration: the fields of
`VintageWatermarkStyler.defaultStyle` (`src/styles/vintage.js` lines 7-28). -/
structure VintageStyle where
  text : String
  font : String
  fontSize : ℚ
  primaryColor : String
  shadowColor : String
  patina : String
  opacity : ℚ
  rotation : ℚ
  position : String
  offsetX : ℚ
  offsetY : ℚ
  shadowOffset : ℚ
  enablePatina : Bool
  enableEmboss : Bool
  borderStyle : String
  borderWidth : ℚ
  ageEffect : ℚ
  sepia : Bool
  noise : ℚ
  vignette : Bool
  deriving DecidableEq, Repr

/-- `VintageWatermarkStyler.defaultStyle` (`src/styles/vintage.js` lines 7-28). -/
def vintageDefaultStyle : VintageStyle :=
  { text := "VINTAGE"
  , font := "Times New Roman Bold"
  , fontSize := 48
  , primaryColor := "#d4af37"
  , shadowColor := "#8b4513"
  , patina := "#2f4f2f"
  , opacity := 0.75
  , rotation := 0
  , position := "bottom-center"
  , offsetX := 0
  , offsetY := 50
  , shadowOffset := 3
  , enablePatina := true
  , enableEmboss := true
  , borderStyle := "ornate"
  , borderWidth := 4
  , ageEffect := 0.3
  , sepia := true
  , noise := 0.15
  , vignette := false }

/-- JavaScript `parseInt(coord.toString())` as applied by the vintage emboss
code to a `_calculatePosition` coordinate.  A numeric coordinate prints as its
decimal form and parses back to its integer part (for the non-negative pixel
offsets used by the stylers this is the floor); each symbolic coordinate
string (`w-tw-OFF`, `h-th-OFF`, `(w-tw)/2`, `(h-th)/2`) starts with a
non-numeric character, so `parseInt` returns `NaN`, modelled as `none`. -/
def parseIntOfCoord : Coord → Option ℤ
  | .ofNum n => some ⌊n⌋
  | .wTwSub _ => none
  | .hThSub _ => none
  | .centerW => none
  | .centerH => none

/-- The emboss coordinate computed by `_buildVintageFilter`
(`src/styles/vintage.js` lines 119-120):
`parseInt(position.coord.toString()) + style.shadowOffset`.  Adding
`shadowOffset` to `NaN` stays `NaN` (`none`). -/
def vintageEmbossCoord (c : Coord) (shadowOffset : ℚ) : Option ℚ :=
  (parseIntOfCoord c).map fun z => (z : ℚ) + shadowOffset

/-- One operation of the vintage video filter chain: tone/grain/vignette
pre-passes, the ornate `drawbox` border, or a `drawtext` layer. -/
inductive VintageOp where
  /-- the sepia `colorchannelmixer=...` pre-pass -/
  | colorchannelmixer
  /-- `noise=alls=N:allf=t+u` with `N = Math.floor(noise*100)` -/
  | noise (alls : ℤ)
  /-- `vignette=PI/4` -/
  | vignette
  /-- `drawbox=x=..:y=..:w=..:h=..:color=COLOR@ALPHA:t=T` -/
  | drawbox (x y w h : CoordE) (color : String) (alpha : ℚ) (t : ℚ)
  /-- a `drawtext` layer -/
  | drawtext (d : DrawText)
  deriving DecidableEq, Repr

/-- `VintageWatermarkStyler._createOrnateBorder` (`src/styles/vintage.js`
lines 174-182). -/
def createOrnateBorder (style : VintageStyle) (position : Pos) : VintageOp :=
  .drawbox (.shiftNeg position.x (style.borderWidth * 4))
           (.shiftNeg position.y (style.borderWidth * 2))
           (.twAdd (style.borderWidth * 8))
           (.thAdd (style.borderWidth * 4))
           style.patina style.ageEffect style.borderWidth

/-- `VintageWatermarkStyler._buildMainVintageText` (`src/styles/vintage.js`
lines 188-197): the main gold text, with an outlined border when
`borderWidth > 0`. -/
def buildMainVintageText (style : VintageStyle) (position : Pos) : DrawText :=
  let base : DrawText :=
    { text := style.text, fontsize := style.fontSize, fontcolor := style.primaryColor
    , alpha := .const style.opacity, x := .base position.x, y := .base position.y
    , font := style.font }
  if 0 < style.borderWidth then
    { base with border := some ⟨style.borderWidth, style.shadowColor, some (style.opacity * 0.8)⟩ }
  else
    base

/-- `VintageWatermarkStyler._buildVintageFilter` (`src/styles/vintage.js`
lines 92-134): optional sepia, noise and vignette pre-passes, the ornate
border, the embossed shadow layer (whose coordinates go through
`parseInt`), the patina layer, and the unconditional main text. -/
def buildVintageFilter (style : VintageStyle) : List VintageOp :=
  let position := vintageCalculatePosition style.position style.offsetX style.offsetY
  (if style.sepia then [VintageOp.colorchannelmixer] else []) ++
  (if 0 < style.noise then [VintageOp.noise ⌊style.noise * 100⌋] else []) ++
  (if style.vignette then [VintageOp.vignette] else []) ++
  (if style.borderStyle = "ornate" then [createOrnateBorder style position] else []) ++
  (if style.enableEmboss then
    [ VintageOp.drawtext
        { text := style.text, fontsize := style.fontSize, fontcolor := style.shadowColor
        , alpha := .const (style.opacity * 0.6)
        , x := .jsNum (vintageEmbossCoord position.x style.shadowOffset)
        , y := .jsNum (vintageEmbossCoord position.y style.shadowOffset)
        , font := style.font } ]
   else []) ++
  (if style.enablePatina then
    [ VintageOp.drawtext
        { text := style.text, fontsize := style.fontSize + 1, fontcolor := style.patina
        , alpha := .const style.ageEffect
        , x := .base position.x, y := .base position.y, font := style.font } ]
   else []) ++
  [VintageOp.drawtext (buildMainVintageText style position)]

/-- `VintageWatermarkStyler._buildStaticVintageFilter` (`src/styles/vintage.js`
lines 140-168): the image variant.  Here the emboss coordinates are shifted at
the string level (`x=POS+OFF`), so symbolic positions stay intact. -/
def buildStaticVintageFilter (style : VintageStyle) : List VintageOp :=
  let position := vintageCalculatePosition style.position style.offsetX style.offsetY
  (if style.sepia then [VintageOp.colorchannelmixer] else []) ++
  (if style.borderStyle = "ornate" then [createOrnateBorder style position] else []) ++
  (if style.enableEmboss then
    [ VintageOp.drawtext
        { text := style.text, fontsize := style.fontSize, fontcolor := style.shadowColor
        , alpha := .const (style.opacity * 0.6)
        , x := .shift position.x style.shadowOffset
        , y := .shift position.y style.shadowOffset
        , font := style.font } ]
   else []) ++
  (if style.enablePatina then
    [ VintageOp.drawtext
        { text := style.text, fontsize := style.fontSize + 1, fontcolor := style.patina
        , alpha := .const style.ageEffect
        , x := .base position.x, y := .base position.y, font := style.font } ]
   else []) ++
  [VintageOp.drawtext (buildMainVintageText style position)]

/-- `NeonWatermarkStyler.defaultStyle` as the untyped JavaScript record it is
in the source (`src/styles/neon.js` lines 7-25), for the merge-level claims. -/
def neonDefaultStyleRecord : JsRecord :=
  [ ("text", .str "NEON")
  , ("font", .str "Arial Bold")
  , ("fontSize", .num 52)
  , ("primaryColor", .str "#00ffff")
  , ("secondaryColor", .str "#ff00ff")
  , ("glowColor", .str "#00ffff")
  , ("opacity", .num 0.85)
  , ("rotation", .num 0)
  , ("position", .str "top-right")
  , ("offsetX", .num 40)
  , ("offsetY", .num 40)
  , ("glowIntensity", .num 8)
  , ("enableDoubleStroke", .bool true)
  , ("strokeWidth", .num 3)
  , ("animationSpeed", .num 0.5)
  , ("blinkEffect", .bool false)
  , ("scanlineEffect", .bool true) ]

/-- The style-resolution step of `NeonWatermarkStyler.applyToVideo`
(`src/styles/neon.js` line 32): a plain object-spread merge.  The source
performs no validation of the override values of any kind; the function is
total and the merged record flows directly into `_buildNeonFilter`. -/
def neonApplyToVideoStyle (customStyle : JsRecord) : JsRecord :=
  spreadMerge neonDefaultStyleRecord customStyle

/-- The style resolution of `NeonWatermarkStyler.applyPulsingNeon`
(`src/styles/neon.js` lines 157-162): the spread merge followed by the two
literal properties `animationSpeed: 1.5` and `blinkEffect: false`, which come
after both spreads and therefore win over any override. -/
def applyPulsingNeonStyle (customStyle : JsRecord) : JsRecord :=
  spreadMerge (spreadMerge neonDefaultStyleRecord customStyle)
    [("animationSpeed", .num 1.5), ("blinkEffect", .bool false)]

/-- `TikTokDownloader.getStyler` (second file embedded in `src/styles/neon.js`,
lines 468-470): `this.watermarkStyles[styleType] || this.watermarkStyles['glitch'] || null`.
The styles map is the association list of loaded styler instances; an unknown
`styleType` silently falls back to the styler registered under `glitch`, and
only when that is also absent does the call return `null` (`none`). -/
def getStyler {α : Type} (watermarkStyles : List (String × α)) (styleType : String) :
    Option α :=
  match watermarkStyles.lookup styleType with
  | some s => some s
  | none => watermarkStyles.lookup "glitch"

/-- `WatermarkStyler._isVideoFile`'s extension whitelist
(`src/unnamed/part_000` line 193). -/
def videoExtensions : List String :=
  [".mp4", ".avi", ".mov", ".mkv", ".webm", ".flv"]

/-- JavaScript `String.prototype.toLowerCase`, applied characterwise
(the strings compared here are ASCII file extensions). -/
def jsToLowerCase (s : String) : String :=
  ⟨s.data.map Char.toLower⟩

/-- `WatermarkStyler._isVideoFile` (`src/unnamed/part_000` lines 192-196).
Node's `path.extname` is an external collaborator, passed in as `extnameOf`. -/
def isVideoFile (extnameOf : String → String) (filePath : String) : Bool :=
  videoExtensions.contains (jsToLowerCase (extnameOf filePath))

/-- `WatermarkStyler._getFileExtension` (`src/unnamed/part_000` lines 198-200):
the extension with its leading dot stripped. -/
def getFileExtension (extnameOf : String → String) (filePath : String) : String :=
  (extnameOf filePath).drop 1

/-- A per-variation result record as pushed by `createVariations`: a success
record carries the output path, a failure record the error message; both carry
the variation itself. -/
structure VariationResult (V : Type) where
  success : Bool
  path : Option String := none
  error : Option String := none
  variation : V
  deriving DecidableEq, Repr

/-- The body of one iteration of the `createVariations` loop
(`src/unnamed/part_000` lines 168-183): build the numbered output path, apply
the video or image styler (an external, fallible render call, modelled as an
`Except`-valued function), and record success or failure. -/
def variationOutcome {V : Type}
    (applyVideo applyImage : String → String → V → Except String String)
    (extnameOf : String → String) (inputPath outputDir : String)
    (i : Nat) (variation : V) : VariationResult V :=
  let outputPath :=
    outputDir ++ "/watermarked_" ++ toString (i + 1) ++ "." ++
      getFileExtension extnameOf inputPath
  match (if isVideoFile extnameOf inputPath then applyVideo inputPath outputPath variation
         else applyImage inputPath outputPath variation) with
  | .ok _ => { success := true, path := some outputPath, variation := variation }
  | .error e => { success := false, error := some e, variation := variation }

/-- The `for` loop of `createVariations`, indexed from `i`: a failed iteration
pushes its failure record and the loop continues with the next variation. -/
def createVariationsAux {V : Type}
    (applyVideo applyImage : String → String → V → Except String String)
    (extnameOf : String → String) (inputPath outputDir : String) :
    List V → Nat → List (VariationResult V)
  | [], _ => []
  | v :: rest, i =>
      variationOutcome applyVideo applyImage extnameOf inputPath outputDir i v ::
        createVariationsAux applyVideo applyImage extnameOf inputPath outputDir rest (i + 1)

/-- `WatermarkStyler.createVariations` (`src/unnamed/part_000` lines 165-186). -/
def createVariations {V : Type}
    (applyVideo applyImage : String → String → V → Except String String)
    (extnameOf : String → String) (inputPath outputDir : String)
    (variations : List V) : List (VariationResult V) :=
  createVariationsAux applyVideo applyImage extnameOf inputPath outputDir variations 0

/-- The clamped fade-in opacity expression `min(t*RATE,TARGET)` emitted by
`NeonWatermarkStyler.createLogoReveal` (`src/styles/neon.js` lines 257-258),
read as a function of the renderer's time variable `t`. -/
def revealOpacity (rate target t : ℚ) : ℚ :=
  min (t * rate) target

/-- The two layers built by `NeonWatermarkStyler.createLogoReveal`
(`src/styles/neon.js` lines 251-259): the main text fading in via
`min(t*0.5, opacity)` and a glow layer (capped extra size) fading in via
`min(t*0.3, 0.4)`. -/
def createLogoRevealLayers (style : NeonStyle) : List DrawText :=
  let position := neonCalculatePosition style.position style.offsetX style.offsetY
  [ { text := style.text, fontsize := style.fontSize, fontcolor := style.primaryColor
    , alpha := .minReveal 0.5 style.opacity
    , x := .base position.x, y := .base position.y, font := style.font }
  , { text := style.text, fontsize := style.fontSize + min 20 (style.glowIntensity * 2)
    , fontcolor := style.glowColor, alpha := .minReveal 0.3 0.4
    , x := .base position.x, y := .base position.y, font := style.font } ]

/-! ## Helper lemmas -/

/-- Lookup distributes over append: the first list is searched first.  Shared
helper for the merge theorems. -/
theorem lookup_append {α β : Type} [BEq α] (l₁ l₂ : List (α × β)) (k : α) :
    (l₁ ++ l₂).lookup k = ((l₁.lookup k).orElse fun _ => l₂.lookup k) := by
  induction l₁ with
  | nil => simp [List.lookup]
  | cons p rest ih =>
      cases h : k == p.1 <;> simp [List.lookup, h, ih, Option.orElse]


/-- The shared position table agrees entry-by-entry with the spec-side anchor
formulas: looking an anchor up in the table gives exactly the documented
symbolic coordinate pair. -/
theorem lookup_positionsTable (anchor : String) (offsetX offsetY : ℚ) :
    (positionsTable offsetX offsetY).lookup anchor
      = resolvePositionSpec anchor offsetX offsetY := by
  unfold positionsTable resolvePositionSpec
  simp only [List.lookup]
  repeat' (split <;> simp_all [beq_iff_eq])

/-! ## Claim theorems -/

/-- Claim C3: for each of the 7 named anchors and all offsets, position
resolution returns exactly the documented symbolic formula (captured by
`resolvePositionSpec`, modelled from the spec's words), and for every anchor
string outside those 7 it returns the family's default anchor's formula and
never throws (the embedding is total).  `dflt` ranges over the per-family
hard-coded default anchors (neon `top-right`, holo `center`, vintage/filmvint
`bottom-center`, watermark `bottom-right`); the second clause's hypothesis
`resolvePositionSpec dflt = some pd` holds for each of them. -/
theorem c3_resolve_position (dflt anchor : String) (offsetX offsetY : ℚ) :
    (∀ p, resolvePositionSpec anchor offsetX offsetY = some p →
        calculatePositionWithDefault dflt anchor offsetX offsetY = p)
    ∧ (resolvePositionSpec anchor offsetX offsetY = none →
        ∀ pd, resolvePositionSpec dflt offsetX offsetY = some pd →
          calculatePositionWithDefault dflt anchor offsetX offsetY = pd) := by
  constructor
  · intro p hp
    unfold calculatePositionWithDefault
    rw [lookup_positionsTable, hp]
  · intro hnone pd hpd
    unfold calculatePositionWithDefault
    rw [lookup_positionsTable, hnone, lookup_positionsTable, hpd]
    rfl

/-- Witness for C3: the neon styler (default anchor `top-right`) resolves
`bottom-right` with offsets (30,30) to the documented
`(w-tw-30, h-th-30)` formula, and resolves the unknown anchor `diagonal` to
the `top-right` default formula `(w-tw-30, 30)`. -/
theorem c3_resolve_position_witness :
    resolvePositionSpec "bottom-right" 30 30 = some ⟨.wTwSub 30, .hThSub 30⟩
    ∧ calculatePositionWithDefault "top-right" "bottom-right" 30 30 = ⟨.wTwSub 30, .hThSub 30⟩
    ∧ resolvePositionSpec "diagonal" 30 30 = none
    ∧ calculatePositionWithDefault "top-right" "diagonal" 30 30 = ⟨.wTwSub 30, .ofNum 30⟩ := by
  refine ⟨by decide, (c3_resolve_position "top-right" "bottom-right" 30 30).1 _ (by decide),
    by decide, (c3_resolve_position "top-right" "diagonal" 30 30).2 (by decide) _ (by decide)⟩

/-- Claim C4: the resolved style configuration is a shallow merge with
overrides winning — every key present in the overrides resolves to the
override value, and every key absent from the overrides resolves to the
family default. -/
theorem c4_shallow_merge (defaults overrides : JsRecord) (k : String) :
    (∀ v, overrides.lookup k = some v → (spreadMerge defaults overrides).lookup k = some v)
    ∧ (overrides.lookup k = none →
        (spreadMerge defaults overrides).lookup k = defaults.lookup k) := by
  constructor
  · intro v hv
    simp [spreadMerge, lookup_append, hv, Option.orElse]
  · intro hv
    simp [spreadMerge, lookup_append, hv, Option.orElse]

/-- Witness for C4: overriding `opacity` on the neon defaults yields the
override value, while the untouched `fontSize` keeps the default. -/
theorem c4_shallow_merge_witness :
    ([("opacity", JsValue.num 1)] : JsRecord).lookup "opacity" = some (.num 1)
    ∧ (spreadMerge neonDefaultStyleRecord [("opacity", .num 1)]).lookup "opacity"
        = some (.num 1)
    ∧ ([("opacity", JsValue.num 1)] : JsRecord).lookup "fontSize" = none
    ∧ (spreadMerge neonDefaultStyleRecord [("opacity", .num 1)]).lookup "fontSize"
        = neonDefaultStyleRecord.lookup "fontSize" := by
  refine ⟨by decide, (c4_shallow_merge neonDefaultStyleRecord _ _).1 _ (by decide),
    by decide, (c4_shallow_merge neonDefaultStyleRecord _ _).2 (by decide)⟩

/-- Claim C5 counterexample: an unknown style family is not a reported lookup
miss — `TikTokDownloader.getStyler` silently substitutes the `glitch` styler.
With a styles map registering `glitch` and `neon`, the unknown family
`vaporwave` (a lookup miss) yields the `glitch` styler instead of a miss. -/
theorem c5_unknown_family_counterexample :
    ([("glitch", 0), ("neon", 1)] : List (String × Nat)).lookup "vaporwave" = none
    ∧ getStyler [("glitch", 0), ("neon", 1)] "vaporwave" = some 0 := by
  exact ⟨rfl, rfl⟩

/-- Claim C5 (amended): no `PresetNotFound` failure exists.  A registered
family name returns its own styler, but an unknown family name is silently
replaced by whatever styler is registered under `glitch` (and only yields
`none` — a skipped watermark, not an error — when `glitch` is also absent).
Unknown-name fallback is therefore not reserved to anchors. -/
theorem c5_styler_fallback {α : Type} (watermarkStyles : List (String × α))
    (styleType : String) :
    (∀ s, watermarkStyles.lookup styleType = some s →
        getStyler watermarkStyles styleType = some s)
    ∧ (watermarkStyles.lookup styleType = none →
        getStyler watermarkStyles styleType = watermarkStyles.lookup "glitch") := by
  constructor
  · intro s hs
    simp [getStyler, hs]
  · intro h
    simp [getStyler, h]

/-- Witness for the amended C5: the registered family `neon` resolves to its
own styler, and the unknown family `retro` falls back to the `glitch` entry. -/
theorem c5_styler_fallback_witness :
    getStyler [("glitch", 0), ("neon", 1)] "neon" = some 1
    ∧ getStyler [("glitch", 0), ("neon", 1)] "retro" = some 0 := by
  refine ⟨(c5_styler_fallback [("glitch", 0), ("neon", 1)] "neon").1 1 (by decide), ?_⟩
  have h := (c5_styler_fallback [("glitch", 0), ("neon", 1)] "retro").2 (by decide)
  simpa using h

/-- The main layer keeps the configured text whatever the stroke setting. -/
theorem neonMainLayer_text (style : NeonStyle) (position : Pos) :
    (neonMainLayer style position).text = style.text := by
  unfold neonMainLayer
  split <;> rfl

/-- The main layer keeps the configured base font size. -/
theorem neonMainLayer_fontsize (style : NeonStyle) (position : Pos) :
    (neonMainLayer style position).fontsize = style.fontSize := by
  unfold neonMainLayer
  split <;> rfl

/-- The main layer is drawn in the primary colour. -/
theorem neonMainLayer_fontcolor (style : NeonStyle) (position : Pos) :
    (neonMainLayer style position).fontcolor = style.primaryColor := by
  unfold neonMainLayer
  split <;> rfl

/-- Claim C1 counterexample: in the holographic compositor every layer is
guarded by an effect flag, so the configuration with every optional effect
disabled produces an empty pipeline — the main crisp text operation is not
present, contradicting the claim that it is never omitted. -/
theorem c1_holo_all_disabled_counterexample :
    buildHolographicFilter holoAllOff = [] := by
  rfl

/-- Claim C2 counterexample: for the neon family at base font size 52 and glow
intensity 8 (the defaults), the pipeline's opacity column is
`[0.2, 0.4, 0.6, 0.85]` — the glow opacities grow as the layers approach the
main layer, so they are not strictly decreasing in that direction
(`0.4 < 0.2` fails for the pair closest to the start). -/
theorem c2_glow_opacity_counterexample :
    (buildNeonFilter neonDefaultStyle).map (fun d => d.alpha)
      = [.const 0.2, .const 0.4, .const 0.6, .const 0.85]
    ∧ ¬ ((0.4 : ℚ) < 0.2) := by
  exact ⟨rfl, by norm_num⟩


/-- Decomposition of the neon pipeline: whatever the optional flags, it is the
three glow layers followed by one final main layer (blink-modulated when
`blinkEffect` is set). -/
theorem buildNeonFilter_decomp (style : NeonStyle) :
    buildNeonFilter style =
      [ { text := style.text, fontsize := style.fontSize + style.glowIntensity * 2
        , fontcolor := style.glowColor, alpha := .const 0.2
        , x := .base (neonCalculatePosition style.position style.offsetX style.offsetY).x
        , y := .base (neonCalculatePosition style.position style.offsetX style.offsetY).y
        , font := style.font }
      , { text := style.text, fontsize := style.fontSize + style.glowIntensity
        , fontcolor := style.glowColor, alpha := .const 0.4
        , x := .base (neonCalculatePosition style.position style.offsetX style.offsetY).x
        , y := .base (neonCalculatePosition style.position style.offsetX style.offsetY).y
        , font := style.font }
      , { text := style.text, fontsize := style.fontSize + 2
        , fontcolor := style.glowColor, alpha := .const 0.6
        , x := .base (neonCalculatePosition style.position style.offsetX style.offsetY).x
        , y := .base (neonCalculatePosition style.position style.offsetX style.offsetY).y
        , font := style.font } ] ++
      [ if style.blinkEffect then
          { neonMainLayer style (neonCalculatePosition style.position style.offsetX style.offsetY) with
              alpha := .blink (style.animationSpeed * 2) style.opacity (style.opacity * 0.3) }
        else
          neonMainLayer style (neonCalculatePosition style.position style.offsetX style.offsetY) ] := by
  by_cases hb : style.blinkEffect <;> simp [buildNeonFilter, hb]

/-- Claim C1 (amended): the invariant holds for the neon compositor — for
every neon configuration the pipeline is three glow layers followed by the
main crisp text layer (carrying the configured text, base font size and
primary colour) as its last operation, even with every optional effect
disabled.  It fails for the holographic compositor, where every layer
(including the prism layers the code's comment calls the main holographic
text) is flag-guarded: with every optional effect disabled its pipeline is
empty. -/
theorem c1_main_text_last_amended :
    (∀ style : NeonStyle, ∃ pre lastLayer,
        buildNeonFilter style = pre ++ [lastLayer]
        ∧ pre.length = 3
        ∧ lastLayer.text = style.text
        ∧ lastLayer.fontsize = style.fontSize
        ∧ lastLayer.fontcolor = style.primaryColor)
    ∧ buildHolographicFilter holoAllOff = [] := by
  constructor
  · intro style
    refine ⟨_, _, buildNeonFilter_decomp style, rfl, ?_, ?_, ?_⟩ <;>
      by_cases hb : style.blinkEffect <;>
        simp [hb, neonMainLayer_text, neonMainLayer_fontsize, neonMainLayer_fontcolor]
  · rfl

/-- Claim C2 (amended): for the neon family at base font size 52 and glow
intensity 8 (the glow layers are unconditional in this family), the pipeline
contains exactly 3 glow layers at font sizes 52+16, 52+8 and 52+2 in that
order followed by exactly 1 main text layer; the glow opacities strictly
increase as the layers approach the main layer (equivalently, strictly
decrease with the extra glow size); and every neon pipeline has exactly 4
layers, so at least two duplicate text operations precede the main one. -/
theorem c2_neon_glow_pipeline_amended :
    ((buildNeonFilter neonDefaultStyle).map (fun d => d.fontsize)
        = [52 + 16, 52 + 8, 52 + 2, 52]
      ∧ (buildNeonFilter neonDefaultStyle).map (fun d => d.alpha)
        = [.const 0.2, .const 0.4, .const 0.6, .const 0.85]
      ∧ (0.2 : ℚ) < 0.4 ∧ (0.4 : ℚ) < 0.6)
    ∧ ∀ style : NeonStyle, (buildNeonFilter style).length = 4 := by
  refine ⟨⟨?_, rfl, by norm_num, by norm_num⟩, ?_⟩
  · simp [buildNeonFilter, neonDefaultStyle, neonMainLayer]
    norm_num
  · intro style
    by_cases hb : style.blinkEffect <;> simp [buildNeonFilter, hb]

/-- The variation loop preserves the number of items: one result record per
variation, whatever the outcomes. -/
theorem createVariationsAux_length {V : Type}
    (applyVideo applyImage : String → String → V → Except String String)
    (extnameOf : String → String) (inputPath outputDir : String)
    (vs : List V) (i0 : Nat) :
    (createVariationsAux applyVideo applyImage extnameOf inputPath outputDir vs i0).length
      = vs.length := by
  induction vs generalizing i0 with
  | nil => rfl
  | cons v rest ih => simp [createVariationsAux, ih]

/-- The i-th result of the variation loop is exactly the outcome of the i-th
variation's own render attempt, independent of every other item. -/
theorem createVariationsAux_getElem {V : Type}
    (applyVideo applyImage : String → String → V → Except String String)
    (extnameOf : String → String) (inputPath outputDir : String)
    (vs : List V) (i0 i : Nat) (v : V) (hv : vs[i]? = some v) :
    (createVariationsAux applyVideo applyImage extnameOf inputPath outputDir vs i0)[i]?
      = some (variationOutcome applyVideo applyImage extnameOf inputPath outputDir (i0 + i) v) := by
  induction vs generalizing i0 i with
  | nil => simp at hv
  | cons w rest ih =>
      cases i with
      | zero =>
          simp only [List.getElem?_cons_zero, Option.some.injEq] at hv
          subst hv
          simp [createVariationsAux]
      | succ n =>
          simp only [List.getElem?_cons_succ] at hv
          have h := ih (i0 + 1) n hv
          simp only [createVariationsAux, List.getElem?_cons_succ]
          rw [h]
          ring_nf

/-- Claim C6: the batch operation processes every variation even when some
fail.  The result list has exactly one entry per variation, and the i-th
entry is precisely the record of variation i's own attempt — a success record
(success flag and output path) or a failure record (success false plus the
error message) — regardless of what any other variation did, so a failure at
position i never aborts the processing of position i+1. -/
theorem c6_batch_failure_isolation {V : Type}
    (applyVideo applyImage : String → String → V → Except String String)
    (extnameOf : String → String) (inputPath outputDir : String)
    (variations : List V) (i : Nat) (v : V)
    (hv : variations[i]? = some v) :
    (createVariations applyVideo applyImage extnameOf inputPath outputDir variations).length
      = variations.length
    ∧ (createVariations applyVideo applyImage extnameOf inputPath outputDir variations)[i]?
      = some (variationOutcome applyVideo applyImage extnameOf inputPath outputDir i v) := by
  constructor
  · exact createVariationsAux_length applyVideo applyImage extnameOf inputPath outputDir
      variations 0
  · have h := createVariationsAux_getElem applyVideo applyImage extnameOf inputPath outputDir
      variations 0 i v hv
    simpa using h

/-- Witness for C6: three variations over `clip.mp4` where the render of
variation 1 fails; the batch still yields 3 records, entry 1 is the failure
record carrying the error message, and entry 2 (after the failure) is a
normal success record. -/
theorem c6_batch_failure_isolation_witness :
    (([0, 1, 2] : List Nat)[2]? = some 2)
    ∧ (createVariations
        (fun _ _ v => if v = 1 then .error "render failed" else .ok "done")
        (fun _ _ _ => .ok "done") (fun _ => ".mp4") "clip.mp4" "out" [0, 1, 2]).length = 3
    ∧ (createVariations
        (fun _ _ v => if v = 1 then .error "render failed" else .ok "done")
        (fun _ _ _ => .ok "done") (fun _ => ".mp4") "clip.mp4" "out" [0, 1, 2])[1]?
      = some { success := false, error := some "render failed", variation := 1 }
    ∧ (createVariations
        (fun _ _ v => if v = 1 then .error "render failed" else .ok "done")
        (fun _ _ _ => .ok "done") (fun _ => ".mp4") "clip.mp4" "out" [0, 1, 2])[2]?
      = some { success := true, path := some "out/watermarked_3.mp4", variation := 2 } := by
  refine ⟨rfl, ?_, ?_, ?_⟩
  · exact (c6_batch_failure_isolation _ _ _ _ _ [0, 1, 2] 2 2 rfl).1
  · have h := (c6_batch_failure_isolation
      (fun _ _ v => if v = 1 then .error "render failed" else .ok "done")
      (fun _ _ _ => .ok "done") (fun _ => ".mp4") "clip.mp4" "out" [0, 1, 2] 1 1 rfl).2
    rw [h]
    decide
  · have h := (c6_batch_failure_isolation
      (fun _ _ v => if v = 1 then .error "render failed" else .ok "done")
      (fun _ _ _ => .ok "done") (fun _ => ".mp4") "clip.mp4" "out" [0, 1, 2] 2 2 rfl).2
    rw [h]
    decide

/-- Claim C7: the reveal/fade-in opacity has the closed form
`min(t*rate, target)`; for positive rate it is monotonically non-decreasing
in the time variable, never exceeds the target, and equals exactly the target
once `t ≥ target/rate`.  The final conjunct ties the formula to the source:
`createLogoReveal` emits exactly the two `min`-clamped opacity expressions
`min(t*0.5, opacity)` and `min(t*0.3, 0.4)`. -/
theorem c7_reveal_clamped_monotone (rate target t tl : ℚ)
    (hrate : 0 < rate) (_ht0 : 0 ≤ t) (ht : t ≤ tl) :
    revealOpacity rate target t ≤ revealOpacity rate target tl
    ∧ revealOpacity rate target t ≤ target
    ∧ (target / rate ≤ t → revealOpacity rate target t = target)
    ∧ (createLogoRevealLayers neonDefaultStyle).map (fun d => d.alpha)
        = [.minReveal 0.5 0.85, .minReveal 0.3 0.4] := by
  refine ⟨?_, min_le_right _ _, ?_, rfl⟩
  · exact min_le_min (mul_le_mul_of_nonneg_right ht hrate.le) le_rfl
  · intro hclamp
    have h : target ≤ t * rate := by
      rw [div_le_iff₀ hrate] at hclamp
      exact hclamp
    exact min_eq_right h

/-- Witness for C7: at rate 0.5 and target 0.85 (the default main reveal
layer), between times 2 and 3 the expression is monotone, stays at or below
the target, and since 0.85/0.5 = 1.7 ≤ 2 it already equals the target. -/
theorem c7_reveal_clamped_monotone_witness :
    (0 : ℚ) < 0.5 ∧ (0 : ℚ) ≤ 2 ∧ (2 : ℚ) ≤ 3
    ∧ revealOpacity 0.5 0.85 2 ≤ revealOpacity 0.5 0.85 3
    ∧ revealOpacity 0.5 0.85 2 ≤ 0.85
    ∧ ((0.85 : ℚ) / 0.5 ≤ 2 → revealOpacity 0.5 0.85 2 = 0.85) := by
  have h := c7_reveal_clamped_monotone 0.5 0.85 2 3 (by norm_num) (by norm_num) (by norm_num)
  exact ⟨by norm_num, by norm_num, by norm_num, h.1, h.2.1, h.2.2.1⟩

/-- Claim C8 counterexample: configuration resolution does not fail on a
wrong-typed override.  Supplying the non-numeric opacity `"not-a-number"` to
the neon `applyToVideo` resolution step yields a resolved record carrying that
string unchanged — no `InvalidConfig` failure exists anywhere in the code
path, so resolution cannot fail, with or without a wrong-typed value. -/
theorem c8_no_validation_counterexample :
    (neonApplyToVideoStyle [("opacity", .str "not-a-number")]).lookup "opacity"
      = some (.str "not-a-number") := by
  rfl

/-- Claim C8 (amended): configuration resolution never fails.  It is a total
shallow merge that accepts every override value as-is — well-typed,
out-of-range or wrong-typed alike — and performs no type validation, so no
`InvalidConfig` error is ever raised before the external render dispatch;
a bad value simply flows into the generated filter string. -/
theorem c8_resolution_accepts_everything (customStyle : JsRecord) (k : String) (v : JsValue)
    (hk : customStyle.lookup k = some v) :
    (neonApplyToVideoStyle customStyle).lookup k = some v := by
  simp [neonApplyToVideoStyle, spreadMerge, lookup_append, hk, Option.orElse]

/-- Witness for the amended C8: a boolean `opacity` override (a wrong semantic
type) is accepted verbatim by the resolution step. -/
theorem c8_resolution_accepts_everything_witness :
    (([("opacity", JsValue.bool true)] : JsRecord).lookup "opacity" = some (.bool true))
    ∧ (neonApplyToVideoStyle [("opacity", .bool true)]).lookup "opacity"
        = some (.bool true) := by
  exact ⟨rfl, c8_resolution_accepts_everything [("opacity", .bool true)] "opacity"
    (.bool true) rfl⟩

/-- Claim C9 (code bug): in the video pipeline the embossed shadow layer of
the default vintage configuration (anchor `bottom-center`, which resolves to
the symbolic coordinates `(w-tw)/2` and `h-th-50`) sits at `x = NaN, y = NaN`
(`jsNum none`), because `_buildVintageFilter` pipes the symbolic coordinate
strings through `parseInt` before adding `shadowOffset`.  The opacity is the
claimed 0.6 × main opacity.  The static image pipeline shows the intent: its
emboss layer is at the main position shifted by `shadowOffset` at the string
level (`POS+3`), exactly as the claim describes. -/
theorem c9_vintage_emboss_nan :
    buildVintageFilter vintageDefaultStyle =
      [ VintageOp.colorchannelmixer
      , VintageOp.noise 15
      , createOrnateBorder vintageDefaultStyle ⟨.centerW, .hThSub 50⟩
      , VintageOp.drawtext
          { text := "VINTAGE", fontsize := 48, fontcolor := "#8b4513"
          , alpha := .const (0.75 * 0.6)
          , x := .jsNum none, y := .jsNum none
          , font := "Times New Roman Bold" }
      , VintageOp.drawtext
          { text := "VINTAGE", fontsize := 48 + 1, fontcolor := "#2f4f2f"
          , alpha := .const 0.3
          , x := .base .centerW, y := .base (.hThSub 50)
          , font := "Times New Roman Bold" }
      , VintageOp.drawtext (buildMainVintageText vintageDefaultStyle ⟨.centerW, .hThSub 50⟩) ]
    ∧ buildStaticVintageFilter vintageDefaultStyle =
      [ VintageOp.colorchannelmixer
      , createOrnateBorder vintageDefaultStyle ⟨.centerW, .hThSub 50⟩
      , VintageOp.drawtext
          { text := "VINTAGE", fontsize := 48, fontcolor := "#8b4513"
          , alpha := .const (0.75 * 0.6)
          , x := .shift .centerW 3, y := .shift (.hThSub 50) 3
          , font := "Times New Roman Bold" }
      , VintageOp.drawtext
          { text := "VINTAGE", fontsize := 48 + 1, fontcolor := "#2f4f2f"
          , alpha := .const 0.3
          , x := .base .centerW, y := .base (.hThSub 50)
          , font := "Times New Roman Bold" }
      , VintageOp.drawtext (buildMainVintageText vintageDefaultStyle ⟨.centerW, .hThSub 50⟩) ] := by
  have hpos : vintageCalculatePosition "bottom-center" 0 50 = ⟨Coord.centerW, Coord.hThSub 50⟩ :=
    rfl
  constructor <;>
    norm_num [buildVintageFilter, buildStaticVintageFilter, vintageDefaultStyle, hpos,
      vintageEmbossCoord, parseIntOfCoord]

/-- Claim C10: the pulsing-neon entry point forces `animationSpeed = 1.5` and
`blinkEffect = false` after the override merge — even when the caller's
overrides specify those keys — while every other key follows the normal
merge rule. -/
theorem c10_pulsing_forced_keys (customStyle : JsRecord) (k : String)
    (hk1 : k ≠ "animationSpeed") (hk2 : k ≠ "blinkEffect") :
    (applyPulsingNeonStyle customStyle).lookup "animationSpeed" = some (.num 1.5)
    ∧ (applyPulsingNeonStyle customStyle).lookup "blinkEffect" = some (.bool false)
    ∧ (applyPulsingNeonStyle customStyle).lookup k
        = (spreadMerge neonDefaultStyleRecord customStyle).lookup k := by
  have h1 : (k == "animationSpeed") = false := beq_eq_false_iff_ne.mpr hk1
  have h2 : (k == "blinkEffect") = false := beq_eq_false_iff_ne.mpr hk2
  refine ⟨rfl, rfl, ?_⟩
  simp [applyPulsingNeonStyle, spreadMerge, List.lookup, h1, h2]

/-- Witness for C10: an override that itself sets `animationSpeed` to 9 still
resolves to the forced 1.5, `blinkEffect` is forced false, and the unrelated
key `opacity` follows the plain merge. -/
theorem c10_pulsing_forced_keys_witness :
    ("opacity" ≠ "animationSpeed") ∧ ("opacity" ≠ "blinkEffect")
    ∧ (applyPulsingNeonStyle [("animationSpeed", .num 9), ("opacity", .num 0.1)]).lookup
        "animationSpeed" = some (.num 1.5)
    ∧ (applyPulsingNeonStyle [("animationSpeed", .num 9), ("opacity", .num 0.1)]).lookup
        "blinkEffect" = some (.bool false)
    ∧ (applyPulsingNeonStyle [("animationSpeed", .num 9), ("opacity", .num 0.1)]).lookup
        "opacity"
      = (spreadMerge neonDefaultStyleRecord
          [("animationSpeed", .num 9), ("opacity", .num 0.1)]).lookup "opacity" := by
  have h := c10_pulsing_forced_keys [("animationSpeed", .num 9), ("opacity", .num 0.1)]
    "opacity" (by decide) (by decide)
  exact ⟨by decide, by decide, h.1, h.2.1, h.2.2⟩
